import Mathlib

/-!
# LEDscape host driver (`ledscape.c`): a shallow embedding

The host side of the WS281x driver talks to two PRU coprocessors through two
command blocks in PRU data RAM and a double-buffered frame region in shared
DDR.  This file embeds

* the pixel encoder `ledscape_pixel_set_color` and the colour-order name
  functions,
* the frame-buffer address computation `ledscape_frame` and the size check of
  `ledscape_init_with_mode_mapping`,
* the command/response handshake of `ledscape_draw`, `ledscape_wait` and
  `ledscape_close`, as host instructions interleaved with coprocessor actions.

Target ABI: 32-bit ARM (`unsigned`, `size_t` and `uintptr_t` are 32 bits wide);
machine arithmetic is `Nat` arithmetic reduced `% 2 ^ 32`.
-/

namespace LEDscape

/-! ## Pixel encoder -/

/-- Colour orders of `color_channel_order_t`, in the order the source lists them. -/
inductive color_channel_order_t where
  | COLOR_ORDER_RGB
  | COLOR_ORDER_RBG
  | COLOR_ORDER_GRB
  | COLOR_ORDER_GBR
  | COLOR_ORDER_BGR
  | COLOR_ORDER_BRG
  | COLOR_ORDER_GRBW
  | COLOR_ORDER_RGBW
  deriving DecidableEq, Repr

open color_channel_order_t

/-- One pixel record `ledscape_pixel_t`: the four output bytes `a`, `b`, `c`, `d`
that `ledscape_pixel_set_color` assigns through `out_pixel`. -/
structure ledscape_pixel_t where
  a : Nat
  b : Nat
  c : Nat
  d : Nat
  deriving DecidableEq, Repr

/-- The function `ledscape_pixel_set_color` (ledscape.c 299-358): the `switch` over the colour
order; each case assigns the fields it names and leaves the others as they were. -/
def ledscape_pixel_set_color (out_pixel : ledscape_pixel_t)
    (color_channel_order : color_channel_order_t) (r g b w : Nat) : ledscape_pixel_t :=
  match color_channel_order with
  | COLOR_ORDER_RGB => { out_pixel with a := r, b := g, c := b }
  | COLOR_ORDER_RBG => { out_pixel with a := r, b := b, c := g }
  | COLOR_ORDER_GRB => { out_pixel with a := g, b := r, c := b }
  | COLOR_ORDER_GBR => { out_pixel with a := g, b := b, c := r }
  | COLOR_ORDER_BGR => { out_pixel with a := b, b := g, c := r }
  | COLOR_ORDER_BRG => { out_pixel with a := b, b := r, c := g }
  | COLOR_ORDER_GRBW => { out_pixel with a := w, b := g, c := r, d := b }
  | COLOR_ORDER_RGBW => { out_pixel with a := w, b := r, c := g, d := b }

/-! ## Colour-order names -/

/-- The bytes of a string literal, as a C `char` array without its terminator. -/
def cstr (s : String) : List Nat := s.toList.map Char.toNat

/-- The function `color_channel_order_to_string` (ledscape.c 361-373).  The `default` branch
is unreachable for the eight enumerators. -/
def color_channel_order_to_string : color_channel_order_t → List Nat
  | COLOR_ORDER_RGB => cstr "RGB"
  | COLOR_ORDER_RBG => cstr "RBG"
  | COLOR_ORDER_GRB => cstr "GRB"
  | COLOR_ORDER_GBR => cstr "GBR"
  | COLOR_ORDER_BGR => cstr "BGR"
  | COLOR_ORDER_BRG => cstr "BRG"
  | COLOR_ORDER_GRBW => cstr "GRBW"
  | COLOR_ORDER_RGBW => cstr "RGBW"

/-- C `tolower` in the "C" locale: only `'A'..'Z'` (65..90) are mapped. -/
def tolower (c : Nat) : Nat := if 65 ≤ c ∧ c ≤ 90 then c + 32 else c

/-- The byte at the head of a C string held as a list: reading at the end of the
list yields the terminating NUL. -/
def cstr_head : List Nat → Nat
  | [] => 0
  | c :: _ => c

/-- libc `strcasecmp`: walk both strings, comparing lower-cased bytes; stop at
the first difference or when the terminator of the first string is reached.
The result is the difference of the two lower-cased bytes. -/
def strcasecmp : List Nat → List Nat → Int
  | [], s2 => (tolower 0 : Int) - (tolower (cstr_head s2) : Int)
  | c1 :: s1, s2 =>
    if c1 = 0 then (tolower 0 : Int) - (tolower (cstr_head s2) : Int)
    else if tolower c1 = tolower (cstr_head s2) then strcasecmp s1 s2.tail
    else (tolower c1 : Int) - (tolower (cstr_head s2) : Int)

/-- The function `color_channel_order_from_string` (ledscape.c 375-403): the `if`/`else if`
chain of `strcasecmp` tests, with `COLOR_ORDER_RGB` in the final `else`. -/
def color_channel_order_from_string (str : List Nat) : color_channel_order_t :=
  if strcasecmp str (cstr "RGB") = 0 then COLOR_ORDER_RGB
  else if strcasecmp str (cstr "RBG") = 0 then COLOR_ORDER_RBG
  else if strcasecmp str (cstr "GRB") = 0 then COLOR_ORDER_GRB
  else if strcasecmp str (cstr "GBR") = 0 then COLOR_ORDER_GBR
  else if strcasecmp str (cstr "BGR") = 0 then COLOR_ORDER_BGR
  else if strcasecmp str (cstr "BRG") = 0 then COLOR_ORDER_BRG
  else if strcasecmp str (cstr "GRBW") = 0 then COLOR_ORDER_GRBW
  else if strcasecmp str (cstr "RGBW") = 0 then COLOR_ORDER_RGBW
  else COLOR_ORDER_RGB

/-- The contents of a C string: the bytes before the first NUL. -/
def cstr_contents (s : List Nat) : List Nat := s.takeWhile (fun c => c ≠ 0)

/-- Equality of two C strings ignoring ASCII case, as the specification words it:
the contents agree byte for byte once upper-case ASCII letters are lowered. -/
def eq_ignore_ascii_case (s t : List Nat) : Prop :=
  (cstr_contents s).map tolower = (cstr_contents t).map tolower

instance (s t : List Nat) : Decidable (eq_ignore_ascii_case s t) := by
  unfold eq_ignore_ascii_case; infer_instance

/-! ## Session state and command blocks -/

/-- Modulus of the 32-bit machine words (`unsigned`, `size_t`, `uintptr_t`). -/
def WORD : Nat := 2 ^ 32

/-- Modelled from the spec: the constant `LEDSCAPE_MAX_STRIPS` of `ledscape.h`,
which is not among the sources; the specification fixes the maximum strip count
at 48 (and `ledscape_init` passes 48 channels). -/
def LEDSCAPE_MAX_STRIPS : Nat := 48

/-- The command structure `ws281x_command_t` shared with a PRU (ledscape.c 57-70). -/
structure ws281x_command_t where
  pixels_dma : Nat
  num_pixels : Nat
  command : Nat
  response : Nat
  deriving DecidableEq, Repr

/-- The fields of the loader handle `pru_t` that `ledscape.c` reads: the host
pointer `ddr` to the mapped shared region, its physical address `ddr_addr` and
its size `ddr_size`.  `released` records that `pru_close` was called on it. -/
structure pru_t where
  ddr : Nat
  ddr_addr : Nat
  ddr_size : Nat
  released : Bool
  deriving DecidableEq, Repr

/-- The session `ledscape_t`.  `ws281x_0` and `ws281x_1` are pointers into the two
PRU data RAMs in C; here the session state carries the pointed-to blocks. -/
structure ledscape_t where
  pru0 : pru_t
  pru1 : pru_t
  num_pixels : Nat
  frame_size : Nat
  ws281x_0 : ws281x_command_t
  ws281x_1 : ws281x_command_t
  deriving DecidableEq, Repr

/-- Which of the two command blocks. -/
inductive block_id where
  | ws281x_0
  | ws281x_1
  deriving DecidableEq, Repr

/-- Which field of a command block. -/
inductive field_id where
  | pixels_dma
  | num_pixels
  | command
  | response
  deriving DecidableEq, Repr

/-- One store to a field of a command block. -/
structure store_t where
  block : block_id
  field : field_id
  value : Nat
  deriving DecidableEq, Repr

/-- Write one field of a command block. -/
def ws281x_command_t.set (c : ws281x_command_t) (f : field_id) (v : Nat) : ws281x_command_t :=
  match f with
  | .pixels_dma => { c with pixels_dma := v }
  | .num_pixels => { c with num_pixels := v }
  | .command => { c with command := v }
  | .response => { c with response := v }

/-- The command block a block id points at. -/
def ledscape_t.block (leds : ledscape_t) : block_id → ws281x_command_t
  | .ws281x_0 => leds.ws281x_0
  | .ws281x_1 => leds.ws281x_1

/-- Perform one store. -/
def ledscape_t.store (leds : ledscape_t) (st : store_t) : ledscape_t :=
  match st.block with
  | .ws281x_0 => { leds with ws281x_0 := leds.ws281x_0.set st.field st.value }
  | .ws281x_1 => { leds with ws281x_1 := leds.ws281x_1.set st.field st.value }

/-- Perform the store of an instruction, if it has one. -/
def ledscape_t.exec (leds : ledscape_t) : Option store_t → ledscape_t
  | none => leds
  | some st => leds.store st

/-- What a PRU may do to its command block, after the comments on
`ws281x_command_t`: `command` "will be cleared when started", `response` "will
have a non-zero response written when done". -/
inductive pru_act where
  | idle
  | ack (b : block_id)
  | respond (b : block_id) (r : Nat)
  deriving DecidableEq, Repr

/-- The effect of one coprocessor action on the shared command blocks. -/
def pru_apply : pru_act → ledscape_t → ledscape_t
  | .idle, s => s
  | .ack b, s => s.store ⟨b, .command, 0⟩
  | .respond b r, s => s.store ⟨b, .response, r⟩

/-! ## Frame buffers -/

/-- The function `ledscape_frame` (ledscape.c 74-84): `none` is `NULL`; otherwise the pointer
`(uint8_t*) leds->pru0->ddr + leds->frame_size * frame`, in 32-bit arithmetic. -/
def ledscape_frame (leds : ledscape_t) (frame : Nat) : Option Nat :=
  if frame ≥ 2 then none
  else some ((leds.pru0.ddr + (leds.frame_size * frame) % WORD) % WORD)

/-! ## Drawing -/

/-- The value of `leds->pru0->ddr_addr + leds->frame_size * frame` (ledscape.c 94-95)
in 32-bit arithmetic. -/
def draw_addr (leds : ledscape_t) (frame : Nat) : Nat :=
  (leds.pru0.ddr_addr + (leds.frame_size * frame) % WORD) % WORD

/-- Program points of `ledscape_draw`, one per access to the shared blocks:
the two address stores (lines 94, 95), the two reads of the busy-wait condition
`command_0 || command_1` (line 98), the two response stores of
`response_0 = response_1 = 0` (line 101), the two start stores (lines 104, 105). -/
inductive draw_pc where
  | set_dma_0
  | set_dma_1
  | test_cmd_0
  | test_cmd_1
  | clear_resp_1
  | clear_resp_0
  | start_0
  | start_1
  | done
  deriving DecidableEq, Repr

/-- The instruction at a program point of `ledscape_draw`: the next program point
(which depends on the state only in the busy-wait) and the store it performs. -/
def draw_instr (leds : ledscape_t) (frame : Nat) : draw_pc → draw_pc × Option store_t
  | .set_dma_0 => (.set_dma_1, some ⟨.ws281x_0, .pixels_dma, draw_addr leds frame⟩)
  | .set_dma_1 => (.test_cmd_0, some ⟨.ws281x_1, .pixels_dma, draw_addr leds frame⟩)
  | .test_cmd_0 => (if leds.ws281x_0.command ≠ 0 then .test_cmd_0 else .test_cmd_1, none)
  | .test_cmd_1 => (if leds.ws281x_1.command ≠ 0 then .test_cmd_0 else .clear_resp_1, none)
  | .clear_resp_1 => (.clear_resp_0, some ⟨.ws281x_1, .response, 0⟩)
  | .clear_resp_0 => (.start_0, some ⟨.ws281x_0, .response, 0⟩)
  | .start_0 => (.start_1, some ⟨.ws281x_0, .command, 1⟩)
  | .start_1 => (.done, some ⟨.ws281x_1, .command, 1⟩)
  | .done => (.done, none)

/-- One tick: the coprocessors' action scheduled at time `t`, then one host
instruction of `ledscape_draw`. -/
def draw_tick (sched : Nat → pru_act) (frame : Nat) (t : Nat)
    (c : draw_pc × ledscape_t) : draw_pc × ledscape_t :=
  ((draw_instr (pru_apply (sched t) c.2) frame c.1).1,
   (pru_apply (sched t) c.2).exec (draw_instr (pru_apply (sched t) c.2) frame c.1).2)

/-- The configuration of `ledscape_draw` after `n` ticks. -/
def draw_run (sched : Nat → pru_act) (frame : Nat) :
    Nat → draw_pc × ledscape_t → draw_pc × ledscape_t
  | 0, c => c
  | n + 1, c => draw_tick sched frame n (draw_run sched frame n c)

/-- Run `ledscape_draw` from time `t` until it returns; `none` when the fuel runs
out first. -/
def draw_loop (sched : Nat → pru_act) (frame : Nat) :
    Nat → Nat → draw_pc × ledscape_t → Option ledscape_t
  | 0, _, _ => none
  | fuel + 1, t, c =>
    if c.1 = .done then some c.2
    else draw_loop sched frame fuel (t + 1) (draw_tick sched frame t c)

/-- The function `ledscape_draw` (ledscape.c 88-106) against the coprocessor schedule `sched`. -/
def ledscape_draw (sched : Nat → pru_act) (fuel : Nat) (leds : ledscape_t) (frame : Nat) :
    Option ledscape_t :=
  draw_loop sched frame fuel 0 (.set_dma_0, leds)

/-- The store `ledscape_draw` makes at tick `n` (after the coprocessors' action of
that tick), if its instruction there has one. -/
def draw_store_at (sched : Nat → pru_act) (frame : Nat) (leds : ledscape_t) (n : Nat) :
    Option store_t :=
  (draw_instr (pru_apply (sched n) (draw_run sched frame n (.set_dma_0, leds)).2) frame
    (draw_run sched frame n (.set_dma_0, leds)).1).2

/-- The schedule of coprocessors that do nothing during the call. -/
def quiescent : Nat → pru_act := fun _ => .idle

/-! ## Waiting -/

/-- The function `ledscape_wait` (ledscape.c 112-128).  `pru_wait_interrupt k` is what the shared
state has become when the `k`-th call of the blocking primitive returns; the
host then reads both responses and returns if both are non-zero. -/
def ledscape_wait (pru_wait_interrupt : Nat → ledscape_t → ledscape_t) :
    Nat → Nat → ledscape_t → Option ledscape_t
  | 0, _, _ => none
  | fuel + 1, k, leds =>
    if (pru_wait_interrupt k leds).ws281x_0.response ≠ 0 ∧
        (pru_wait_interrupt k leds).ws281x_1.response ≠ 0 then
      some (pru_wait_interrupt k leds)
    else ledscape_wait pru_wait_interrupt fuel (k + 1) (pru_wait_interrupt k leds)

/-- The shared state seen at the `k`-th observation (after `k + 1` returns of the
interrupt wait) when nobody but the coprocessors writes to it. -/
def observed (pru_wait_interrupt : Nat → ledscape_t → ledscape_t) (leds : ledscape_t) :
    Nat → ledscape_t
  | 0 => pru_wait_interrupt 0 leds
  | k + 1 => pru_wait_interrupt (k + 1) (observed pru_wait_interrupt leds k)

/-- Both channels report done. -/
def both_done (leds : ledscape_t) : Prop :=
  leds.ws281x_0.response ≠ 0 ∧ leds.ws281x_1.response ≠ 0

instance (leds : ledscape_t) : Decidable (both_done leds) := by
  unfold both_done; infer_instance

/-! ## Closing -/

/-- Modelled from the spec: the loader's `pru_close` (`release(handle)`), which is
not among the sources; it releases the handle and stores to no command block. -/
def pru_close (pru : pru_t) : pru_t := { pru with released := true }

/-- The function `ledscape_close` (ledscape.c 405-415). -/
def ledscape_close (leds : ledscape_t) : ledscape_t :=
  let s1 := leds.store ⟨.ws281x_0, .command, 0xFF⟩
  let s2 := s1.store ⟨.ws281x_1, .command, 0xFF⟩
  { s2 with pru0 := pru_close s2.pru0, pru1 := pru_close s2.pru1 }

/-! ## Session creation -/

/-- How `ledscape_init_with_mode_mapping` ends. -/
inductive init_result where
  | exit_failure
  | die
  | no_response
  | session (leds : ledscape_t)
  deriving DecidableEq, Repr

/-- The start-up busy-wait `while (!block->response);` (ledscape.c 262, 271) from
time `t`: the time and state at which it falls through, `none` without fuel. -/
def spin_response (sched : Nat → pru_act) (b : block_id) :
    Nat → Nat → ledscape_t → Option (Nat × ledscape_t)
  | 0, _, _ => none
  | fuel + 1, t, s =>
    if ((pru_apply (sched t) s).block b).response ≠ 0 then some (t + 1, pru_apply (sched t) s)
    else spin_response sched b fuel (t + 1) (pru_apply (sched t) s)

/-- The function `ledscape_init_with_mode_mapping` (ledscape.c 181-275) from the results of its
external calls: whether the setup script exists (`access`), the exit codes of the
pin-map generator and of the setup script (`system`), the two handles returned
by `pru_init`, and the coprocessors' schedule once the firmware runs.  The file
names and the copied mapping/mode names play no part in the state modelled. -/
def ledscape_init_with_mode_mapping (setup_script_exists : Bool) (pinmap_ret setup_ret : Int)
    (pru0 pru1 : pru_t) (sched : Nat → pru_act) (fuel : Nat) (num_pixels : Nat) :
    init_result :=
  if setup_script_exists = false ∧ pinmap_ret ≠ 0 then .exit_failure
  else if setup_ret ≠ 0 then .exit_failure
  else
    let frame_size := ((num_pixels * LEDSCAPE_MAX_STRIPS) % WORD * 4) % WORD
    if (2 * frame_size) % WORD > pru0.ddr_size then .die
    else
      let cmd : ws281x_command_t :=
        { pixels_dma := 0, command := 0, response := 0, num_pixels := num_pixels }
      let leds : ledscape_t :=
        { pru0 := pru0, pru1 := pru1, num_pixels := num_pixels, frame_size := frame_size,
          ws281x_0 := cmd, ws281x_1 := cmd }
      match spin_response sched .ws281x_0 fuel 0 leds with
      | none => .no_response
      | some (t, s0) =>
        match spin_response sched .ws281x_1 fuel t s0 with
        | none => .no_response
        | some (_, s1) => .session s1

/-- The function `ledscape_init` (ledscape.c 172-179). -/
def ledscape_init (setup_script_exists : Bool) (pinmap_ret setup_ret : Int)
    (pru0 pru1 : pru_t) (sched : Nat → pru_act) (fuel : Nat) (num_pixels : Nat) :
    init_result :=
  ledscape_init_with_mode_mapping setup_script_exists pinmap_ret setup_ret pru0 pru1 sched
    fuel num_pixels

/-- What the loader guarantees of a handle returned by `pru_init`: the shared
region of `ddr_size` bytes lies inside the 32-bit address space, both at its host
pointer `ddr` and at its physical address `ddr_addr`. -/
def pru_t.mapped (pru : pru_t) : Prop :=
  pru.ddr < WORD ∧ pru.ddr + pru.ddr_size ≤ WORD ∧
  pru.ddr_addr < WORD ∧ pru.ddr_addr + pru.ddr_size ≤ WORD

instance (pru : pru_t) : Decidable pru.mapped := by
  unfold pru_t.mapped; infer_instance

/-- What the busy-wait of `ledscape_draw` has established at each program point:
after `command_0` was read as 0 it is still 0 when `command_1` is tested, both
are 0 from the exit of the loop up to the first start store, and `command_1` is
still 0 at the second start store. -/
def draw_inv : draw_pc → ledscape_t → Prop
  | .test_cmd_1, s => s.ws281x_0.command = 0
  | .clear_resp_1, s => s.ws281x_0.command = 0 ∧ s.ws281x_1.command = 0
  | .clear_resp_0, s => s.ws281x_0.command = 0 ∧ s.ws281x_1.command = 0
  | .start_0, s => s.ws281x_0.command = 0 ∧ s.ws281x_1.command = 0
  | .start_1, s => s.ws281x_1.command = 0
  | _, _ => True

/-- A session of 100 pixels in a 38400-byte region at physical address 0x99900000,
idle, with slot 0 last drawn. -/
def idle_session : ledscape_t :=
  { pru0 := ⟨4096, 2576351232, 38400, false⟩, pru1 := ⟨4096, 2576351232, 38400, false⟩,
    num_pixels := 100, frame_size := 19200,
    ws281x_0 := ⟨2576351232, 100, 0, 1⟩, ws281x_1 := ⟨2576351232, 100, 0, 1⟩ }

/-- The same session just after `ledscape_draw` of slot 0: both start commands are
written and not yet acknowledged. -/
def armed_session : ledscape_t :=
  { idle_session with
    ws281x_0 := ⟨2576351232, 100, 1, 0⟩, ws281x_1 := ⟨2576351232, 100, 1, 0⟩ }

/-- Coprocessors that acknowledge: PRU0 clears its command at time 2, PRU1 at time 3. -/
def acking : Nat → pru_act := fun t =>
  if t = 2 then .ack .ws281x_0 else if t = 3 then .ack .ws281x_1 else .idle

/-- Coprocessors that start up: PRU0 responds at time 0, PRU1 at time 1. -/
def starting : Nat → pru_act := fun t =>
  if t = 0 then .respond .ws281x_0 1 else if t = 1 then .respond .ws281x_1 1 else .idle

/-- An interrupt wait during which the start-up schedule's action for that
observation takes place. -/
def responding : Nat → ledscape_t → ledscape_t := fun k s => pru_apply (starting k) s

/-! ## Theorems: pixel encoder -/

/-- C1: for each of the eight colour orders `ledscape_pixel_set_color` leaves the
record equal to the documented table: the three-letter orders write `a`, `b`, `c` in
the order of their name and keep `d`; `GRBW` gives `(w,g,r,b)` and `RGBW` gives
`(w,r,g,b)`; for instance `GRBW` with `r=10,g=20,b=30,w=40` gives `(40,20,10,30)`. -/
theorem ledscape_pixel_set_color_table (p : ledscape_pixel_t) (r g b w : Nat) :
    ledscape_pixel_set_color p COLOR_ORDER_RGB r g b w = ⟨r, g, b, p.d⟩ ∧
    ledscape_pixel_set_color p COLOR_ORDER_RBG r g b w = ⟨r, b, g, p.d⟩ ∧
    ledscape_pixel_set_color p COLOR_ORDER_GRB r g b w = ⟨g, r, b, p.d⟩ ∧
    ledscape_pixel_set_color p COLOR_ORDER_GBR r g b w = ⟨g, b, r, p.d⟩ ∧
    ledscape_pixel_set_color p COLOR_ORDER_BGR r g b w = ⟨b, g, r, p.d⟩ ∧
    ledscape_pixel_set_color p COLOR_ORDER_BRG r g b w = ⟨b, r, g, p.d⟩ ∧
    ledscape_pixel_set_color p COLOR_ORDER_GRBW r g b w = ⟨w, g, r, b⟩ ∧
    ledscape_pixel_set_color p COLOR_ORDER_RGBW r g b w = ⟨w, r, g, b⟩ ∧
    ledscape_pixel_set_color p COLOR_ORDER_GRBW 10 20 30 40 = ⟨40, 20, 10, 30⟩ := by
  refine ⟨rfl, rfl, rfl, rfl, rfl, rfl, rfl, rfl, rfl⟩

/-- C9 fails as stated: with `GRBW` and `r=10,g=20,b=30,w=40` field `d` receives the
blue byte 30, not the white byte 40. -/
theorem white_not_in_d :
    (ledscape_pixel_set_color ⟨0, 0, 0, 0⟩ COLOR_ORDER_GRBW 10 20 30 40).d = 30 ∧
    (ledscape_pixel_set_color ⟨0, 0, 0, 0⟩ COLOR_ORDER_GRBW 10 20 30 40).d ≠ 40 := by
  decide

/-- C9 amended: for `GRBW` and `RGBW` the white channel is written into field `a`,
and the three RGB channels occupy `b`, `c`, `d` in the order of the name. -/
theorem white_in_a (p : ledscape_pixel_t) (r g b w : Nat) :
    (ledscape_pixel_set_color p COLOR_ORDER_GRBW r g b w).a = w ∧
    (ledscape_pixel_set_color p COLOR_ORDER_GRBW r g b w).b = g ∧
    (ledscape_pixel_set_color p COLOR_ORDER_GRBW r g b w).c = r ∧
    (ledscape_pixel_set_color p COLOR_ORDER_GRBW r g b w).d = b ∧
    (ledscape_pixel_set_color p COLOR_ORDER_RGBW r g b w).a = w ∧
    (ledscape_pixel_set_color p COLOR_ORDER_RGBW r g b w).b = r ∧
    (ledscape_pixel_set_color p COLOR_ORDER_RGBW r g b w).c = g ∧
    (ledscape_pixel_set_color p COLOR_ORDER_RGBW r g b w).d = b := by
  refine ⟨rfl, rfl, rfl, rfl, rfl, rfl, rfl, rfl⟩

/-! ## Theorems: colour-order names -/

theorem tolower_eq_zero (c : Nat) : tolower c = 0 ↔ c = 0 := by
  unfold tolower
  split <;> omega

theorem cstr_contents_nil_of_head (t : List Nat) (h : cstr_head t = 0) :
    cstr_contents t = [] := by
  cases t with
  | nil => rfl
  | cons c t => simp [cstr_head] at h; simp [cstr_contents, h]

theorem cstr_head_of_contents_nil (t : List Nat) (h : cstr_contents t = []) :
    cstr_head t = 0 := by
  cases t with
  | nil => rfl
  | cons c t =>
    by_cases hc : c = 0
    · simp [cstr_head, hc]
    · simp [cstr_contents, List.takeWhile, hc] at h

theorem strcasecmp_stop (t : List Nat) :
    ((tolower 0 : Int) - (tolower (cstr_head t) : Int) = 0) ↔ cstr_contents t = [] := by
  constructor
  · intro h
    have h0 : tolower 0 = 0 := by decide
    have : tolower (cstr_head t) = 0 := by omega
    exact cstr_contents_nil_of_head t ((tolower_eq_zero _).1 this)
  · intro h
    rw [cstr_head_of_contents_nil t h]
    exact sub_self _

/-- The comparison `strcasecmp` returns 0 exactly when the two strings are equal ignoring ASCII case. -/
theorem strcasecmp_eq_zero_iff (s t : List Nat) :
    strcasecmp s t = 0 ↔ eq_ignore_ascii_case s t := by
  unfold eq_ignore_ascii_case
  induction s generalizing t with
  | nil =>
    rw [strcasecmp, strcasecmp_stop]
    simp [cstr_contents]
  | cons c1 s1 ih =>
    rw [strcasecmp]
    by_cases hc : c1 = 0
    · rw [if_pos hc, strcasecmp_stop]
      simp [cstr_contents, hc]
    · rw [if_neg hc]
      have hl : tolower c1 ≠ 0 := fun h => hc ((tolower_eq_zero c1).1 h)
      cases t with
      | nil =>
        have : tolower c1 ≠ tolower (cstr_head []) := by
          simpa [cstr_head, (tolower_eq_zero 0).2 rfl] using hl
        rw [if_neg this]
        simp [cstr_contents, List.takeWhile, hc, cstr_head]
        have h0 : tolower 0 = 0 := by decide
        omega
      | cons c2 t2 =>
        simp only [cstr_head, List.tail_cons]
        by_cases hc2 : c2 = 0
        · have h0 : tolower 0 = 0 := by decide
          subst hc2
          have : tolower c1 ≠ tolower 0 := by omega
          rw [if_neg this]
          simp [cstr_contents, List.takeWhile, hc]
          omega
        · by_cases he : tolower c1 = tolower c2
          · rw [if_pos he, ih t2]
            simp [cstr_contents, List.takeWhile, hc, hc2, he]
          · rw [if_neg he]
            simp [cstr_contents, List.takeWhile, hc, hc2, he]
            omega

/-- C10: `color_channel_order_from_string s` is the colour order whose name equals
`s` ignoring ASCII case, it is `COLOR_ORDER_RGB` when `s` matches none of the
eight names, and it inverts `color_channel_order_to_string` on all eight orders. -/
theorem color_channel_order_from_string_spec (s : List Nat) :
    (∀ o, eq_ignore_ascii_case s (color_channel_order_to_string o) →
        color_channel_order_from_string s = o) ∧
    ((∀ o, ¬ eq_ignore_ascii_case s (color_channel_order_to_string o)) →
        color_channel_order_from_string s = COLOR_ORDER_RGB) ∧
    (∀ o, color_channel_order_from_string (color_channel_order_to_string o) = o) := by
  refine ⟨?_, ?_, ?_⟩
  · intro o h
    have hiff := fun t => strcasecmp_eq_zero_iff s t
    unfold color_channel_order_from_string
    simp only [hiff]
    unfold eq_ignore_ascii_case at h ⊢
    cases o <;>
      simp only [color_channel_order_to_string] at h <;>
      simp [h] <;> decide
  · intro h
    unfold color_channel_order_from_string
    simp only [strcasecmp_eq_zero_iff]
    have h1 := h COLOR_ORDER_RGB
    have h2 := h COLOR_ORDER_RBG
    have h3 := h COLOR_ORDER_GRB
    have h4 := h COLOR_ORDER_GBR
    have h5 := h COLOR_ORDER_BGR
    have h6 := h COLOR_ORDER_BRG
    have h7 := h COLOR_ORDER_GRBW
    have h8 := h COLOR_ORDER_RGBW
    simp only [color_channel_order_to_string] at h1 h2 h3 h4 h5 h6 h7 h8
    simp [h1, h2, h3, h4, h5, h6, h7, h8]
  · intro o
    cases o <;> decide

/-- Witness for C10: `"grbw"` is read as `GRBW` and `"purple"` falls back to `RGB`. -/
theorem color_channel_order_from_string_spec_witness :
    color_channel_order_from_string (cstr "grbw") = COLOR_ORDER_GRBW ∧
    color_channel_order_from_string (cstr "purple") = COLOR_ORDER_RGB :=
  ⟨(color_channel_order_from_string_spec (cstr "grbw")).1 COLOR_ORDER_GRBW (by decide),
   (color_channel_order_from_string_spec (cstr "purple")).2.1
     (by intro o; cases o <;> decide)⟩

/-! ## Theorems: frame buffers -/

/-- C5: in a session whose two frames fit the mapped shared region, slot 0 is at
the region's base and slot 1 at base + frame_size; each frame lies inside
`[base, base + ddr_size)`; the two frames share no byte; slots 2 and up give `NULL`. -/
theorem ledscape_frame_layout (leds : ledscape_t)
    (hfit : 2 * leds.frame_size ≤ leds.pru0.ddr_size) (hmap : leds.pru0.mapped) :
    ledscape_frame leds 0 = some leds.pru0.ddr ∧
    ledscape_frame leds 1 = some (leds.pru0.ddr + leds.frame_size) ∧
    (∀ slot, slot < 2 → ∃ p, ledscape_frame leds slot = some p ∧
        p = leds.pru0.ddr + slot * leds.frame_size ∧
        leds.pru0.ddr ≤ p ∧ p + leds.frame_size ≤ leds.pru0.ddr + leds.pru0.ddr_size) ∧
    (∀ p0 p1 x, ledscape_frame leds 0 = some p0 → ledscape_frame leds 1 = some p1 →
        ¬ (p0 ≤ x ∧ x < p0 + leds.frame_size ∧ p1 ≤ x ∧ x < p1 + leds.frame_size)) ∧
    (∀ slot, 2 ≤ slot → ledscape_frame leds slot = none) := by
  obtain ⟨h1, h2, -, -⟩ := hmap
  have e0 : ledscape_frame leds 0 = some leds.pru0.ddr := by
    simp [ledscape_frame, Nat.mod_eq_of_lt h1]
  have e1 : ledscape_frame leds 1 = some (leds.pru0.ddr + leds.frame_size) := by
    have a : leds.frame_size % WORD = leds.frame_size := Nat.mod_eq_of_lt (by omega)
    have b : (leds.pru0.ddr + leds.frame_size) % WORD = leds.pru0.ddr + leds.frame_size := by
      by_cases hz : leds.frame_size = 0
      · rw [hz]; exact Nat.mod_eq_of_lt (by omega)
      · exact Nat.mod_eq_of_lt (by omega)
    simp [ledscape_frame, a, b]
  refine ⟨e0, e1, ?_, ?_, ?_⟩
  · intro slot hs
    interval_cases slot
    · exact ⟨_, e0, by omega, by omega, by omega⟩
    · exact ⟨_, e1, by omega, by omega, by omega⟩
  · intro p0 p1 x hp0 hp1
    rw [e0] at hp0
    rw [e1] at hp1
    cases hp0
    cases hp1
    omega
  · intro slot hs
    simp [ledscape_frame, hs]

/-- Witness for C5: a 38400-byte region mapped at 0x1000 with 19200-byte frames. -/
theorem ledscape_frame_layout_witness :
    ledscape_frame ⟨⟨4096, 2576351232, 38400, false⟩, ⟨4096, 2576351232, 38400, false⟩,
        100, 19200, ⟨0, 100, 0, 0⟩, ⟨0, 100, 0, 0⟩⟩ 1 = some (4096 + 19200) :=
  (ledscape_frame_layout ⟨⟨4096, 2576351232, 38400, false⟩, ⟨4096, 2576351232, 38400, false⟩,
        100, 19200, ⟨0, 100, 0, 0⟩, ⟨0, 100, 0, 0⟩⟩ (by decide) (by decide)).2.1

/-! ## Theorems: closing -/

/-- C7: `ledscape_close` sets `command` of both blocks to 0xFF and leaves
`pixels_dma`, `num_pixels` and `response` of both blocks as they were, whatever
the blocks held. -/
theorem ledscape_close_halts (leds : ledscape_t) :
    (ledscape_close leds).ws281x_0.command = 0xFF ∧
    (ledscape_close leds).ws281x_1.command = 0xFF ∧
    (ledscape_close leds).ws281x_0.pixels_dma = leds.ws281x_0.pixels_dma ∧
    (ledscape_close leds).ws281x_0.num_pixels = leds.ws281x_0.num_pixels ∧
    (ledscape_close leds).ws281x_0.response = leds.ws281x_0.response ∧
    (ledscape_close leds).ws281x_1.pixels_dma = leds.ws281x_1.pixels_dma ∧
    (ledscape_close leds).ws281x_1.num_pixels = leds.ws281x_1.num_pixels ∧
    (ledscape_close leds).ws281x_1.response = leds.ws281x_1.response := by
  refine ⟨rfl, rfl, rfl, rfl, rfl, rfl, rfl, rfl⟩

/-! ## Theorems: drawing -/

/-- For a session whose frames fit the mapped region, the 32-bit address
computation of `ledscape_draw` does not wrap. -/
theorem draw_addr_exact (leds : ledscape_t) (frame : Nat) (hf : frame < 2)
    (hfit : 2 * leds.frame_size ≤ leds.pru0.ddr_size) (hmap : leds.pru0.mapped) :
    draw_addr leds frame = leds.pru0.ddr_addr + leds.frame_size * frame := by
  obtain ⟨-, -, h3, h4⟩ := hmap
  unfold draw_addr
  interval_cases frame
  · simp [Nat.mod_eq_of_lt h3]
  · have a : leds.frame_size % WORD = leds.frame_size := Nat.mod_eq_of_lt (by omega)
    have b : (leds.pru0.ddr_addr + leds.frame_size) % WORD =
        leds.pru0.ddr_addr + leds.frame_size := by
      by_cases hz : leds.frame_size = 0
      · rw [hz]; exact Nat.mod_eq_of_lt (by omega)
      · exact Nat.mod_eq_of_lt (by omega)
    simp [a, b]

/-- C2: entered with both `command` fields 0 and a slot in {0,1}, `ledscape_draw`
returns (any fuel of at least 9 suffices when the coprocessors do not write during
the call) and leaves both blocks with `pixels_dma` the value of
`ddr_addr + frame_size * slot`, `response = 0`, `command = 1` and `num_pixels` unchanged;
the address is the exact sum whenever the two frames fit the mapped region. -/
theorem ledscape_draw_arms (leds : ledscape_t) (frame fuel : Nat)
    (h0 : leds.ws281x_0.command = 0) (h1 : leds.ws281x_1.command = 0)
    (hf : frame < 2) (hfuel : 9 ≤ fuel) :
    ledscape_draw quiescent fuel leds frame = some { leds with
      ws281x_0 := { pixels_dma := draw_addr leds frame,
                    num_pixels := leds.ws281x_0.num_pixels, command := 1, response := 0 },
      ws281x_1 := { pixels_dma := draw_addr leds frame,
                    num_pixels := leds.ws281x_1.num_pixels, command := 1, response := 0 } } ∧
    (2 * leds.frame_size ≤ leds.pru0.ddr_size → leds.pru0.mapped →
      draw_addr leds frame = leds.pru0.ddr_addr + leds.frame_size * frame) := by
  obtain ⟨k, rfl⟩ : ∃ k, fuel = k + 9 := ⟨fuel - 9, by omega⟩
  refine ⟨?_, fun hfit hmap => draw_addr_exact leds frame hf hfit hmap⟩
  simp [ledscape_draw, draw_loop, draw_tick, draw_instr, quiescent, pru_apply,
    ledscape_t.exec, ledscape_t.store, ws281x_command_t.set, h0, h1, draw_addr]

/-- Witness for C2: drawing slot 1 of the idle sample session arms both channels
at physical address 0x99900000 + 19200. -/
theorem ledscape_draw_arms_witness :
    ledscape_draw quiescent 9 idle_session 1 = some
      { pru0 := ⟨4096, 2576351232, 38400, false⟩, pru1 := ⟨4096, 2576351232, 38400, false⟩,
        num_pixels := 100, frame_size := 19200,
        ws281x_0 := ⟨2576370432, 100, 1, 0⟩, ws281x_1 := ⟨2576370432, 100, 1, 0⟩ } :=
  (ledscape_draw_arms idle_session 1 9 (by decide) (by decide) (by decide) (by decide)).1

theorem draw_inv_pru_apply (a : pru_act) (pc : draw_pc) (s : ledscape_t)
    (h : draw_inv pc s) : draw_inv pc (pru_apply a s) := by
  cases a with
  | idle => exact h
  | ack b =>
    cases b <;> cases pc <;>
      simp_all [draw_inv, pru_apply, ledscape_t.store, ws281x_command_t.set]
  | respond b r =>
    cases b <;> cases pc <;>
      simp_all [draw_inv, pru_apply, ledscape_t.store, ws281x_command_t.set]

theorem draw_inv_instr (frame : Nat) (pc : draw_pc) (s : ledscape_t)
    (h : draw_inv pc s) :
    draw_inv (draw_instr s frame pc).1 (s.exec (draw_instr s frame pc).2) := by
  cases pc <;>
    simp_all [draw_inv, draw_instr, ledscape_t.exec, ledscape_t.store, ws281x_command_t.set]
  · by_cases hc : s.ws281x_0.command = 0 <;> simp [hc, draw_inv]
  · by_cases hc : s.ws281x_1.command = 0 <;> simp [hc, draw_inv, h]

theorem draw_inv_run (sched : Nat → pru_act) (frame : Nat) (leds : ledscape_t) (n : Nat) :
    draw_inv (draw_run sched frame n (.set_dma_0, leds)).1
      (draw_run sched frame n (.set_dma_0, leds)).2 := by
  induction n with
  | zero => simp [draw_run, draw_inv]
  | succ n ih =>
    simp only [draw_run, draw_tick]
    exact draw_inv_instr frame _ _ (draw_inv_pru_apply _ _ _ ih)

/-- C3 fails as stated: entered on the armed sample session (both `command` fields
1, slot 0 in flight), the first instruction of `ledscape_draw` of slot 1 is a store to
block 0's `pixels_dma`; after two instructions both `pixels_dma` fields are replaced,
while both `command` fields are still 1 and the busy-wait has not made a single test. -/
theorem draw_overwrites_in_flight_address :
    (draw_instr armed_session 1 .set_dma_0).2 = some ⟨.ws281x_0, .pixels_dma, 2576370432⟩ ∧
    armed_session.ws281x_0.command = 1 ∧ armed_session.ws281x_1.command = 1 ∧
    armed_session.ws281x_0.pixels_dma = 2576351232 ∧
    armed_session.ws281x_1.pixels_dma = 2576351232 ∧
    draw_run quiescent 1 2 (.set_dma_0, armed_session) =
      (.test_cmd_0, { armed_session with
        ws281x_0 := ⟨2576370432, 100, 1, 0⟩, ws281x_1 := ⟨2576370432, 100, 1, 0⟩ }) := by
  decide

theorem draw_addr_pru_apply (a : pru_act) (s : ledscape_t) (frame : Nat) :
    draw_addr (pru_apply a s) frame = draw_addr s frame := by
  cases a with
  | idle => rfl
  | ack b => cases b <;> rfl
  | respond b r => cases b <;> rfl

theorem pixels_dma_pru_apply (a : pru_act) (s : ledscape_t) :
    (pru_apply a s).ws281x_0.pixels_dma = s.ws281x_0.pixels_dma ∧
    (pru_apply a s).ws281x_1.pixels_dma = s.ws281x_1.pixels_dma := by
  cases a with
  | idle => exact ⟨rfl, rfl⟩
  | ack b => cases b <;> exact ⟨rfl, rfl⟩
  | respond b r => cases b <;> exact ⟨rfl, rfl⟩

/-- Where `ledscape_draw` stands after `n` ticks and what the two `pixels_dma` fields
hold: untouched at tick 0, block 0 stored at tick 1, both stored from tick 2 on,
when the two entry instructions are behind. -/
theorem draw_run_dma (sched : Nat → pru_act) (frame : Nat) (leds : ledscape_t) (n : Nat) :
    draw_addr (draw_run sched frame n (.set_dma_0, leds)).2 frame = draw_addr leds frame ∧
    ((n = 0 ∧ (draw_run sched frame n (.set_dma_0, leds)).1 = .set_dma_0 ∧
      (draw_run sched frame n (.set_dma_0, leds)).2.ws281x_0.pixels_dma
        = leds.ws281x_0.pixels_dma ∧
      (draw_run sched frame n (.set_dma_0, leds)).2.ws281x_1.pixels_dma
        = leds.ws281x_1.pixels_dma) ∨
     (n = 1 ∧ (draw_run sched frame n (.set_dma_0, leds)).1 = .set_dma_1 ∧
      (draw_run sched frame n (.set_dma_0, leds)).2.ws281x_0.pixels_dma
        = draw_addr leds frame ∧
      (draw_run sched frame n (.set_dma_0, leds)).2.ws281x_1.pixels_dma
        = leds.ws281x_1.pixels_dma) ∨
     (2 ≤ n ∧ (draw_run sched frame n (.set_dma_0, leds)).1 ≠ .set_dma_0 ∧
      (draw_run sched frame n (.set_dma_0, leds)).1 ≠ .set_dma_1 ∧
      (draw_run sched frame n (.set_dma_0, leds)).2.ws281x_0.pixels_dma
        = draw_addr leds frame ∧
      (draw_run sched frame n (.set_dma_0, leds)).2.ws281x_1.pixels_dma
        = draw_addr leds frame)) := by
  induction n with
  | zero => simp [draw_run]
  | succ n ih =>
    simp only [draw_run, draw_tick]
    generalize draw_run sched frame n (.set_dma_0, leds) = c at ih
    obtain ⟨pc, m⟩ := c
    simp only at ih
    obtain ⟨ha, hd⟩ := ih
    have hA := draw_addr_pru_apply (sched n) m frame
    obtain ⟨hp0, hp1⟩ := pixels_dma_pru_apply (sched n) m
    generalize pru_apply (sched n) m = m1 at hA hp0 hp1
    rw [ha] at hA
    have hE : ∀ o : Option store_t, draw_addr (m1.exec o) frame = draw_addr leds frame := by
      intro o
      rw [← hA]
      cases o with
      | none => rfl
      | some st =>
        obtain ⟨b, f, v⟩ := st
        cases b <;> rfl
    refine ⟨hE _, ?_⟩
    rcases hd with ⟨hn, hp, d0, d1⟩ | ⟨hn, hp, d0, d1⟩ | ⟨hn, hq0, hq1, d0, d1⟩
    · subst hp
      right; left
      simp [draw_instr, ledscape_t.exec, ledscape_t.store, ws281x_command_t.set, hn, hA,
        hp1, d1]
    · subst hp
      right; right
      simp [draw_instr, ledscape_t.exec, ledscape_t.store, ws281x_command_t.set, hn, hA,
        hp0, d0]
    · right; right
      refine ⟨by omega, ?_⟩
      cases pc <;>
        simp_all [draw_instr, ledscape_t.exec, ledscape_t.store, ws281x_command_t.set]
      · split <;> simp
      · split <;> simp

/-- C3 amended: against every coprocessor schedule and on every session,
`ledscape_draw` stores the address of the requested slot into `pixels_dma` of block 0
at its first instruction and of block 1 at its second, before the busy-wait and
whatever the `command` fields hold; from then on both fields hold that address, so
when the slot requested is the one already recorded both fields keep their
previous values throughout the call.  Every other store it makes is a store to
`response` or `command`, made after the busy-wait at a moment when the `command`
field of the block stored to is 0; no store to `pixels_dma` is made after entry. -/
theorem draw_store_guard (sched : Nat → pru_act) (frame : Nat) (leds : ledscape_t) :
    draw_store_at sched frame leds 0 = some ⟨.ws281x_0, .pixels_dma, draw_addr leds frame⟩ ∧
    draw_store_at sched frame leds 1 = some ⟨.ws281x_1, .pixels_dma, draw_addr leds frame⟩ ∧
    (∀ n, 2 ≤ n →
      (draw_run sched frame n (.set_dma_0, leds)).2.ws281x_0.pixels_dma
        = draw_addr leds frame ∧
      (draw_run sched frame n (.set_dma_0, leds)).2.ws281x_1.pixels_dma
        = draw_addr leds frame) ∧
    (leds.ws281x_0.pixels_dma = draw_addr leds frame →
      leds.ws281x_1.pixels_dma = draw_addr leds frame →
      ∀ n, (draw_run sched frame n (.set_dma_0, leds)).2.ws281x_0.pixels_dma
          = leds.ws281x_0.pixels_dma ∧
        (draw_run sched frame n (.set_dma_0, leds)).2.ws281x_1.pixels_dma
          = leds.ws281x_1.pixels_dma) ∧
    (∀ n st, draw_store_at sched frame leds n = some st →
      (st.field = .pixels_dma ∧ n < 2 ∧ st.value = draw_addr leds frame) ∨
      ((st.field = .response ∨ st.field = .command) ∧ 2 ≤ n ∧
        ((draw_run sched frame n (.set_dma_0, leds)).1 = .clear_resp_1 ∨
         (draw_run sched frame n (.set_dma_0, leds)).1 = .clear_resp_0 ∨
         (draw_run sched frame n (.set_dma_0, leds)).1 = .start_0 ∨
         (draw_run sched frame n (.set_dma_0, leds)).1 = .start_1) ∧
        ((pru_apply (sched n) (draw_run sched frame n (.set_dma_0, leds)).2).block
          st.block).command = 0)) := by
  have key := draw_run_dma sched frame leds
  refine ⟨?_, ?_, ?_, ?_, ?_⟩
  · simp [draw_store_at, draw_run, draw_instr, draw_addr_pru_apply]
  · obtain ⟨ha, h | h | h⟩ := key 1
    · omega
    · simp [draw_store_at, h.2.1, draw_instr, draw_addr_pru_apply, ha]
    · exact absurd (by simp [draw_run, draw_tick, draw_instr]) h.2.2.1
  · intro n hn
    obtain ⟨-, h | h | h⟩ := key n
    · omega
    · omega
    · exact ⟨h.2.2.2.1, h.2.2.2.2⟩
  · intro e0 e1 n
    obtain ⟨-, h | h | h⟩ := key n
    · exact ⟨h.2.2.1, h.2.2.2⟩
    · exact ⟨h.2.2.1.trans e0.symm, h.2.2.2⟩
    · exact ⟨h.2.2.2.1.trans e0.symm, h.2.2.2.2.trans e1.symm⟩
  · intro n st h
    have hinv := draw_inv_pru_apply (sched n) _ _ (draw_inv_run sched frame leds n)
    obtain ⟨ha, hd⟩ := key n
    have hA := draw_addr_pru_apply (sched n) (draw_run sched frame n (.set_dma_0, leds)).2 frame
    rw [ha] at hA
    unfold draw_store_at at h
    generalize (draw_run sched frame n (.set_dma_0, leds)).1 = pc at h hinv hd ⊢
    generalize pru_apply (sched n) (draw_run sched frame n (.set_dma_0, leds)).2 = m
      at h hinv hA ⊢
    have hn2 : pc ≠ .set_dma_0 → pc ≠ .set_dma_1 → 2 ≤ n := by
      intro h0 h1
      rcases hd with hd | hd | hd
      · exact absurd hd.2.1 h0
      · exact absurd hd.2.1 h1
      · exact hd.1
    have hn1 : pc = .set_dma_0 ∨ pc = .set_dma_1 → n < 2 := by
      intro hp
      rcases hd with hd | hd | hd
      · omega
      · omega
      · rcases hp with hp | hp
        · exact absurd hp hd.2.1
        · exact absurd hp hd.2.2.1
    cases pc <;> simp [draw_instr] at h <;> subst h
    · exact Or.inl ⟨rfl, hn1 (Or.inl rfl), hA⟩
    · exact Or.inl ⟨rfl, hn1 (Or.inr rfl), hA⟩
    · exact Or.inr ⟨Or.inl rfl, hn2 (by decide) (by decide), Or.inl rfl, hinv.2⟩
    · exact Or.inr ⟨Or.inl rfl, hn2 (by decide) (by decide), Or.inr (Or.inl rfl), hinv.1⟩
    · exact Or.inr ⟨Or.inr rfl, hn2 (by decide) (by decide), Or.inr (Or.inr (Or.inl rfl)),
        hinv.1⟩
    · exact Or.inr ⟨Or.inr rfl, hn2 (by decide) (by decide),
        Or.inr (Or.inr (Or.inr rfl)), hinv⟩

/-- Witness for C3 amended: re-drawing slot 0 on the armed sample session, whose
blocks already record slot 0, leaves both `pixels_dma` fields at their previous
values after 5 ticks; and with acknowledging coprocessors the store of a draw of
slot 1 at tick 6 is the first start command, made after the busy-wait while block
0's `command` field is 0. -/
theorem draw_store_guard_witness :
    ((draw_run quiescent 0 5 (.set_dma_0, armed_session)).2.ws281x_0.pixels_dma
        = armed_session.ws281x_0.pixels_dma ∧
      (draw_run quiescent 0 5 (.set_dma_0, armed_session)).2.ws281x_1.pixels_dma
        = armed_session.ws281x_1.pixels_dma) ∧
    ((store_t.mk .ws281x_0 .command 1).field = .response ∨
      (store_t.mk .ws281x_0 .command 1).field = .command) ∧
    2 ≤ 6 ∧
    ((draw_run acking 1 6 (.set_dma_0, armed_session)).1 = .clear_resp_1 ∨
     (draw_run acking 1 6 (.set_dma_0, armed_session)).1 = .clear_resp_0 ∨
     (draw_run acking 1 6 (.set_dma_0, armed_session)).1 = .start_0 ∨
     (draw_run acking 1 6 (.set_dma_0, armed_session)).1 = .start_1) ∧
    ((pru_apply (acking 6) (draw_run acking 1 6 (.set_dma_0, armed_session)).2).block
      (store_t.mk .ws281x_0 .command 1).block).command = 0 :=
  ⟨(draw_store_guard quiescent 0 armed_session).2.2.2.1 (by decide) (by decide) 5,
   ((draw_store_guard acking 1 armed_session).2.2.2.2 6 ⟨.ws281x_0, .command, 1⟩
      (by decide)).resolve_left (by decide)⟩

/-! ## Theorems: drawing on a closed session -/

/-- C8 fails as stated: `ledscape_draw` of slot 1 on the closed sample session, with
coprocessors that clear the two `command` fields, returns normally with both
channels armed (`command = 1`), `response` cleared and `pixels_dma` replaced. -/
theorem draw_after_close_arms :
    (ledscape_close idle_session).ws281x_0 = ⟨2576351232, 100, 255, 1⟩ ∧
    (ledscape_close idle_session).ws281x_1 = ⟨2576351232, 100, 255, 1⟩ ∧
    ledscape_draw acking 9 (ledscape_close idle_session) 1 = some
      { pru0 := ⟨4096, 2576351232, 38400, true⟩, pru1 := ⟨4096, 2576351232, 38400, true⟩,
        num_pixels := 100, frame_size := 19200,
        ws281x_0 := ⟨2576370432, 100, 1, 0⟩, ws281x_1 := ⟨2576370432, 100, 1, 0⟩ } := by
  decide

theorem draw_loop_none (sched : Nat → pru_act) (frame : Nat) (c0 : draw_pc × ledscape_t)
    (h : ∀ n, (draw_run sched frame n c0).1 ≠ .done) (fuel t : Nat) :
    draw_loop sched frame fuel t (draw_run sched frame t c0) = none := by
  induction fuel generalizing t with
  | zero => rfl
  | succ fuel ih =>
    rw [draw_loop, if_neg (h t)]
    exact ih (t + 1)

theorem draw_run_closed (sched : Nat → pru_act) (hs : ∀ t b, sched t ≠ .ack b)
    (leds : ledscape_t) (frame n : Nat) :
    (draw_run sched frame n (.set_dma_0, ledscape_close leds)).2.ws281x_0.command = 0xFF ∧
    (draw_run sched frame n (.set_dma_0, ledscape_close leds)).2.ws281x_1.command = 0xFF ∧
    (draw_run sched frame n (.set_dma_0, ledscape_close leds)).2.pru0.ddr_addr
      = leds.pru0.ddr_addr ∧
    (draw_run sched frame n (.set_dma_0, ledscape_close leds)).2.frame_size
      = leds.frame_size ∧
    ((n = 0 ∧ (draw_run sched frame n (.set_dma_0, ledscape_close leds)).1 = .set_dma_0) ∨
     (n = 1 ∧ (draw_run sched frame n (.set_dma_0, ledscape_close leds)).1 = .set_dma_1 ∧
      (draw_run sched frame n (.set_dma_0, ledscape_close leds)).2.ws281x_0.pixels_dma
        = draw_addr leds frame) ∨
     (2 ≤ n ∧ (draw_run sched frame n (.set_dma_0, ledscape_close leds)).1 = .test_cmd_0 ∧
      (draw_run sched frame n (.set_dma_0, ledscape_close leds)).2.ws281x_0.pixels_dma
        = draw_addr leds frame ∧
      (draw_run sched frame n (.set_dma_0, ledscape_close leds)).2.ws281x_1.pixels_dma
        = draw_addr leds frame)) := by
  induction n with
  | zero =>
    simp [draw_run, ledscape_close, ledscape_t.store, ws281x_command_t.set, pru_close]
  | succ n ih =>
    have hsn := hs n
    simp only [draw_run, draw_tick]
    generalize draw_run sched frame n (.set_dma_0, ledscape_close leds) = c at ih
    obtain ⟨pc, m⟩ := c
    simp only at ih
    obtain ⟨i0, i1, i2, i3, i4⟩ := ih
    cases ha : sched n with
    | ack b => exact absurd ha (hsn b)
    | idle =>
      rcases i4 with ⟨hn, hp⟩ | ⟨hn, hp, d0⟩ | ⟨hn, hp, d0, d1⟩ <;> subst hp <;>
        simp_all [pru_apply, draw_instr, ledscape_t.exec, ledscape_t.store,
          ws281x_command_t.set, draw_addr]
      all_goals omega
    | respond b r =>
      rcases i4 with ⟨hn, hp⟩ | ⟨hn, hp, d0⟩ | ⟨hn, hp, d0, d1⟩ <;> subst hp <;> cases b <;>
        simp_all [pru_apply, draw_instr, ledscape_t.exec, ledscape_t.store,
          ws281x_command_t.set, draw_addr]
      all_goals omega

/-- C8 amended: `ledscape_draw` has no closed-session check and reports no error.
On a closed session it still stores the slot's address into `pixels_dma` of both
blocks, then busy-waits: as long as the coprocessors do not clear the `command`
fields it never returns, never leaves the busy-wait (so it stores to neither
`response` nor `command`), and both `command` fields stay 0xFF. -/
theorem draw_after_close_blocks (sched : Nat → pru_act) (hs : ∀ t b, sched t ≠ .ack b)
    (leds : ledscape_t) (frame : Nat) :
    (∀ fuel, ledscape_draw sched fuel (ledscape_close leds) frame = none) ∧
    (∀ n,
      (draw_run sched frame n (.set_dma_0, ledscape_close leds)).2.ws281x_0.command = 0xFF ∧
      (draw_run sched frame n (.set_dma_0, ledscape_close leds)).2.ws281x_1.command = 0xFF ∧
      ((draw_run sched frame n (.set_dma_0, ledscape_close leds)).1 = .set_dma_0 ∨
       (draw_run sched frame n (.set_dma_0, ledscape_close leds)).1 = .set_dma_1 ∨
       (draw_run sched frame n (.set_dma_0, ledscape_close leds)).1 = .test_cmd_0) ∧
      (2 ≤ n →
        (draw_run sched frame n (.set_dma_0, ledscape_close leds)).2.ws281x_0.pixels_dma
          = draw_addr leds frame ∧
        (draw_run sched frame n (.set_dma_0, ledscape_close leds)).2.ws281x_1.pixels_dma
          = draw_addr leds frame)) := by
  have key := draw_run_closed sched hs leds frame
  have hnd : ∀ n, (draw_run sched frame n (.set_dma_0, ledscape_close leds)).1 ≠ .done := by
    intro n
    obtain ⟨-, -, -, -, h | h | h⟩ := key n
    · rw [h.2]; decide
    · rw [h.2.1]; decide
    · rw [h.2.1]; decide
  refine ⟨fun fuel => ?_, fun n => ?_⟩
  · exact draw_loop_none sched frame (.set_dma_0, ledscape_close leds) hnd fuel 0
  · obtain ⟨k0, k1, -, -, h | h | h⟩ := key n
    · exact ⟨k0, k1, Or.inl h.2, fun h2 => by omega⟩
    · exact ⟨k0, k1, Or.inr (Or.inl h.2.1), fun h2 => by omega⟩
    · exact ⟨k0, k1, Or.inr (Or.inr h.2.1), fun _ => h.2.2⟩

/-- Witness for C8 amended: with coprocessors that do nothing, drawing slot 1 on
the closed sample session does not return within 50 steps. -/
theorem draw_after_close_blocks_witness :
    ledscape_draw quiescent 50 (ledscape_close idle_session) 1 = none :=
  (draw_after_close_blocks quiescent (by intro t b; simp [quiescent]) idle_session 1).1 50

/-! ## Theorems: waiting -/

theorem ledscape_wait_from (w : Nat → ledscape_t → ledscape_t) (leds s : ledscape_t) :
    ∀ (fuel k0 : Nat) (pre : ledscape_t), w k0 pre = observed w leds k0 →
      (ledscape_wait w fuel k0 pre = some s ↔
        ∃ k, k0 ≤ k ∧ k < k0 + fuel ∧ both_done (observed w leds k) ∧
          (∀ j, k0 ≤ j → j < k → ¬ both_done (observed w leds j)) ∧
          s = observed w leds k) := by
  intro fuel
  induction fuel with
  | zero =>
    intro k0 pre _
    simp [ledscape_wait]
    intro k h1 h2
    omega
  | succ fuel ih =>
    intro k0 pre hpre
    rw [ledscape_wait, hpre]
    by_cases hd : both_done (observed w leds k0)
    · have hd2 := hd
      unfold both_done at hd2
      rw [if_pos hd2]
      constructor
      · intro h
        exact ⟨k0, le_refl _, by omega, hd, fun j h1 h2 => by omega,
          (Option.some.inj h).symm⟩
      · rintro ⟨k, h1, -, -, h4, h5⟩
        have : k = k0 := by
          by_contra hne
          exact h4 k0 (le_refl _) (by omega) hd
        rw [h5, this]
    · have hd2 := hd
      unfold both_done at hd2
      rw [if_neg hd2, ih (k0 + 1) (observed w leds k0) rfl]
      constructor
      · rintro ⟨k, h1, h2, h3, h4, h5⟩
        refine ⟨k, by omega, by omega, h3, fun j hj1 hj2 => ?_, h5⟩
        by_cases hj : j = k0
        · rw [hj]; exact hd
        · exact h4 j (by omega) hj2
      · rintro ⟨k, h1, h2, h3, h4, h5⟩
        have hk : k ≠ k0 := fun he => hd (he ▸ h3)
        exact ⟨k, by omega, by omega, h3, fun j hj1 hj2 => h4 j (by omega) hj2, h5⟩

/-- C6: `ledscape_wait` returns exactly at the first observation at which both
responses are non-zero: it returns state `s` if and only if `s` is the state seen at
some observation `k` (within the fuel) where both channels are done while at no
earlier observation both were; the state it returns is the observed state itself,
so the host has stored to no field of either command block. -/
theorem ledscape_wait_first_done (w : Nat → ledscape_t → ledscape_t) (leds s : ledscape_t)
    (fuel : Nat) :
    ledscape_wait w fuel 0 leds = some s ↔
      ∃ k, k < fuel ∧ both_done (observed w leds k) ∧
        (∀ j, j < k → ¬ both_done (observed w leds j)) ∧ s = observed w leds k := by
  rw [ledscape_wait_from w leds s fuel 0 leds rfl]
  constructor
  · rintro ⟨k, -, h2, h3, h4, h5⟩
    exact ⟨k, by omega, h3, fun j hj => h4 j (Nat.zero_le _) hj, h5⟩
  · rintro ⟨k, h2, h3, h4, h5⟩
    exact ⟨k, Nat.zero_le _, by omega, h3, fun j _ hj => h4 j hj, h5⟩

/-- Witness for C6: on the armed sample session PRU0 responds during the first
interrupt wait and PRU1 during the second; `ledscape_wait` returns at the second
observation, not at the first, where only one channel is done. -/
theorem ledscape_wait_first_done_witness :
    ledscape_wait responding 3 0 armed_session = some (observed responding armed_session 1) ∧
    ¬ both_done (observed responding armed_session 0) :=
  ⟨(ledscape_wait_first_done responding armed_session
      (observed responding armed_session 1) 3).2 ⟨1, by decide, by decide, by decide, rfl⟩,
   by decide⟩

/-! ## Theorems: session creation -/

/-- As long as `2 * num_pixels * 48 * 4` fits a 32-bit word, the size check is exact:
once set-up has succeeded, session creation dies whenever two frames exceed the
shared region. -/
theorem init_size_check_exact (setup_script_exists : Bool) (pru0 pru1 : pru_t)
    (sched : Nat → pru_act) (fuel num_pixels : Nat)
    (hsmall : 2 * num_pixels * LEDSCAPE_MAX_STRIPS * 4 < WORD)
    (hbig : pru0.ddr_size < 2 * num_pixels * LEDSCAPE_MAX_STRIPS * 4) :
    ledscape_init_with_mode_mapping setup_script_exists 0 0 pru0 pru1 sched fuel num_pixels
      = .die := by
  have hW : WORD = 4294967296 := by decide
  have hS : LEDSCAPE_MAX_STRIPS = 48 := rfl
  rw [hS] at hsmall hbig
  have e1 : (num_pixels * 48) % 4294967296 = num_pixels * 48 :=
    Nat.mod_eq_of_lt (by omega)
  have e2 : (num_pixels * 48 * 4) % 4294967296 = num_pixels * 48 * 4 :=
    Nat.mod_eq_of_lt (by omega)
  have e3 : (2 * (num_pixels * 48 * 4)) % 4294967296 = 2 * (num_pixels * 48 * 4) :=
    Nat.mod_eq_of_lt (by omega)
  have hgt : pru0.ddr_size < 2 * (num_pixels * 48 * 4) := by omega
  simp [ledscape_init_with_mode_mapping, hW, hS, e1, e2, e3, hgt]


/-- C4, the code at the failing input: with 22369622 pixels the 32-bit product
`num_pixels * 48 * 4` wraps to 128, so a 262144-byte region passes the size check and
a session with `frame_size = 128` is returned, although two frames need
8589934848 bytes. -/
theorem init_size_check_wraps :
    ledscape_init_with_mode_mapping true 0 0 ⟨4096, 2576351232, 262144, false⟩
        ⟨4096, 2576351232, 262144, false⟩ starting 4 22369622 =
      .session
        { pru0 := ⟨4096, 2576351232, 262144, false⟩,
          pru1 := ⟨4096, 2576351232, 262144, false⟩,
          num_pixels := 22369622, frame_size := 128,
          ws281x_0 := ⟨0, 22369622, 0, 1⟩, ws281x_1 := ⟨0, 22369622, 0, 1⟩ } ∧
    2 * 22369622 * LEDSCAPE_MAX_STRIPS * 4 = 8589934848 ∧
    262144 < 2 * 22369622 * LEDSCAPE_MAX_STRIPS * 4 := by
  decide

end LEDscape
